import Mathlib

/-!
Shallow embedding of the heat-diffusion update kernels of this repository.

The repository holds two strategies behind one contract, each a function
updateGrid() called once per frame on a W x H row-major integer field:

* src/simulation.js (namespace Simulation below): integer neighbour-transfer
  diffusion.  Reads come from a frame-start snapshot, writes go to the live
  array, so the frame is a pure function of the starting field; we embed it
  as such.  All JavaScript arithmetic in that file is exact: field values are
  integers in [0,100], diff * 0.25 is an exact binary fraction, and
  Math.round(x) = floor(x + 1/2) for such values, so ℤ together with a
  rational rounding helper models it with no loss.

* src/simulation2.js (namespace Simulation2 below): Laplacian-stencil
  diffusion over persistent Float32 accumulators.  The accumulators are
  embedded as exact rationals; the claims settled against this embedding
  (value flow of the reconciliation pass, clamping, the rounding projection,
  and one concrete small-grid step whose float evaluation incurs no rounding
  that crosses an integer boundary) do not depend on Float32 rounding error.

Both variants publish only integers clamped to [0,100].
-/

namespace TempGrid

/-- JavaScript Math.round for the exact values arising here:
round half toward positive infinity, i.e. floor(q + 1/2). -/
def jsRound (q : ℚ) : ℤ := ⌊q + 1/2⌋

/-- Math.max lo (Math.min hi v) on integers, as used for the final
range clamp in both source files. -/
def clampZ (lo hi v : ℤ) : ℤ := max lo (min hi v)

/-- Math.max lo (Math.min hi v) on the accumulator values of simulation2.js. -/
def clampQ (lo hi v : ℚ) : ℚ := max lo (min hi v)

namespace Simulation

/-- FLOW_RATE of src/simulation.js line 80 (0.25, exact in binary floating point). -/
def FLOW_RATE : ℚ := 1/4

/-- One clamped per-neighbour transfer of src/simulation.js lines 118-141,
computed by the cell holding snapshot value c against a neighbour holding
snapshot value n: skip on zero diff, round the scaled diff, then apply the
equilibrium-safety clamp with maxTransfer = Math.trunc(diff / 2). -/
def transfer (c n : ℤ) : ℤ :=
  if n - c = 0 then 0
  else if 0 < n - c then
    max 0 (min (jsRound (((n - c : ℤ) : ℚ) * FLOW_RATE)) (Int.tdiv (n - c) 2))
  else
    min 0 (max (jsRound (((n - c : ℤ) : ℚ) * FLOW_RATE)) (Int.tdiv (n - c) 2))

/-- The net delta a cell at (x, y) accumulates from its four cardinal
neighbours (top, bottom, left, right), out-of-bounds neighbours skipped;
src/simulation.js lines 108-146. -/
def neighbourDelta (W H : ℕ) (old : ℕ → ℤ) (x y : ℕ) : ℤ :=
  (if 0 < y then transfer (old (y * W + x)) (old ((y - 1) * W + x)) else 0) +
  (if y + 1 < H then transfer (old (y * W + x)) (old ((y + 1) * W + x)) else 0) +
  (if 0 < x then transfer (old (y * W + x)) (old (y * W + (x - 1))) else 0) +
  (if x + 1 < W then transfer (old (y * W + x)) (old (y * W + (x + 1))) else 0)

/-- The value written for cell index p during a frame:
clamp(oldTemp[p] + delta, 0, 100); src/simulation.js line 150. -/
def cellUpdate (W H : ℕ) (old : ℕ → ℤ) (p : ℕ) : ℤ :=
  clampZ 0 100 (old p + neighbourDelta W H old (p % W) (p / W))

/-- updateGrid of src/simulation.js as a pure function of the frame-start
field: every grid index is written once with its cellUpdate value computed
from the snapshot, indices outside the grid are untouched. -/
def updateGrid (W H : ℕ) (f : ℕ → ℤ) : ℕ → ℤ :=
  fun i => if i < W * H then cellUpdate W H f i else f i

/-- Integer mirror of transfer used for kernel evaluation:
Math.round(diff * 0.25) equals the floor division (diff + 2) / 4. -/
def transferZ (c n : ℤ) : ℤ :=
  if n - c = 0 then 0
  else if 0 < n - c then
    max 0 (min ((n - c + 2) / 4) (Int.tdiv (n - c) 2))
  else
    min 0 (max ((n - c + 2) / 4) (Int.tdiv (n - c) 2))

/-- Integer mirror of neighbourDelta. -/
def neighbourDeltaZ (W H : ℕ) (old : ℕ → ℤ) (x y : ℕ) : ℤ :=
  (if 0 < y then transferZ (old (y * W + x)) (old ((y - 1) * W + x)) else 0) +
  (if y + 1 < H then transferZ (old (y * W + x)) (old ((y + 1) * W + x)) else 0) +
  (if 0 < x then transferZ (old (y * W + x)) (old (y * W + (x - 1))) else 0) +
  (if x + 1 < W then transferZ (old (y * W + x)) (old (y * W + (x + 1))) else 0)

/-- Integer mirror of cellUpdate. -/
def cellUpdateZ (W H : ℕ) (old : ℕ → ℤ) (p : ℕ) : ℤ :=
  clampZ 0 100 (old p + neighbourDeltaZ W H old (p % W) (p / W))

/-- Integer mirror of updateGrid. -/
def updateGridZ (W H : ℕ) (f : ℕ → ℤ) : ℕ → ℤ :=
  fun i => if i < W * H then cellUpdateZ W H f i else f i

/-- The value a sequential in-place traversal writes at cell p: it depends
only on the frame-start snapshot, never on the live array. -/
def writeCell (W H : ℕ) (old : ℕ → ℤ) (t : ℕ → ℤ) (p : ℕ) : ℕ → ℤ :=
  fun i => if i = p then cellUpdate W H old p else t i

/-- updateGrid as the source actually executes it: visit the cells in a
given order, reading from the frame-start snapshot f and writing each
visited cell into the live array (initially f itself). -/
def updateGridSeq (W H : ℕ) (order : List ℕ) (f : ℕ → ℤ) : ℕ → ℤ :=
  order.foldl (writeCell W H f) f

end Simulation

namespace Simulation2

/-- DIFFUSIVITY of src/simulation2.js line 29 (0.2). -/
def DIFFUSIVITY : ℚ := 1/5

/-- The persistent state of src/simulation2.js: the shared integer field
plus the two floating-point accumulator arrays stateA (current) and
stateB (next). -/
structure State where
  temp : ℕ → ℤ
  stateA : ℕ → ℚ
  stateB : ℕ → ℚ

/-- ensureBuffers of src/simulation2.js lines 35-44 at the moment it
allocates: both accumulators are seeded from the current integer field. -/
def seeded (f : ℕ → ℤ) : State :=
  { temp := f, stateA := fun i => (f i : ℚ), stateB := fun i => (f i : ℚ) }

/-- The pre-step reconciliation pass of src/simulation2.js lines 58-62:
for every cell of the grid, if the live integer field differs from the
rounded accumulator, adopt the field value as authoritative. -/
def reconcile (size : ℕ) (t : ℕ → ℤ) (a : ℕ → ℚ) : ℕ → ℚ :=
  fun i => if i < size ∧ t i ≠ jsRound (a i) then ((t i : ℤ) : ℚ) else a i

/-- The Laplacian stencil write for the cell at (x, y), reading from the
current accumulator a; out-of-bounds neighbours reuse the centre value
(insulated boundary); result clamped to [0,100];
src/simulation2.js lines 69-82. -/
def lapCell (W H : ℕ) (a : ℕ → ℚ) (x y : ℕ) : ℚ :=
  clampQ 0 100
    (a (y * W + x) + DIFFUSIVITY *
      (a ((if 0 < y then y - 1 else y) * W + x) +
       a ((if y + 1 < H then y + 1 else y) * W + x) +
       a (y * W + (if 0 < x then x - 1 else x)) +
       a (y * W + (if x + 1 < W then x + 1 else x)) -
       4 * a (y * W + x)))

/-- The next accumulator (stateB after the stencil loop): the stencil value
on grid cells, the untouched old stateB contents elsewhere. -/
def nextAcc (W H : ℕ) (s : State) : ℕ → ℚ :=
  fun i =>
    if i < W * H then lapCell W H (reconcile (W * H) s.temp s.stateA) (i % W) (i / W)
    else s.stateB i

/-- updateGrid of src/simulation2.js: reconcile, run the stencil into
stateB, publish clamp(round(stateB[i]), 0, 100) into the field, then swap
the two accumulators. -/
def updateGrid (W H : ℕ) (s : State) : State :=
  { temp := fun i =>
      if i < W * H then clampZ 0 100 (jsRound (nextAcc W H s i)) else s.temp i
    stateA := nextAcc W H s
    stateB := reconcile (W * H) s.temp s.stateA }

end Simulation2

/-- Concrete 3 x 3 field of the spec scenario A: centre cell 100, rest 0. -/
def fieldC2 : ℕ → ℤ := fun i => if i = 4 then 100 else 0

/-- Concrete 4 x 3 field: cell (1,1) holds 50 surrounded by 0 on its other
three sides, its right neighbour (2,1) holds 48 surrounded by 100 on its
other three sides. -/
def fieldC4 : ℕ → ℤ := fun i =>
  if i = 5 then 50
  else if i = 6 then 48
  else if i = 2 ∨ i = 7 ∨ i = 10 then 100
  else 0

/-- Two adjacent cells on a 2 x 1 grid holding a and b. -/
def pairField (a b : ℤ) : ℕ → ℤ := fun i => if i = 0 then a else b

/-- Concrete 2 x 2 field of the spec scenario B: [100, 0, 0, 0]. -/
def fieldC5 : ℕ → ℤ := fun i => if i = 0 then 100 else 0

/-- The final clamp always lands in [0, 100]. -/
theorem clampZ_range (v : ℤ) : 0 ≤ clampZ 0 100 v ∧ clampZ 0 100 v ≤ 100 := by
  unfold clampZ; omega

/-- The accumulator clamp always lands in [0, 100]. -/
theorem clampQ_range (v : ℚ) : 0 ≤ clampQ 0 100 v ∧ clampQ 0 100 v ≤ 100 := by
  unfold clampQ
  constructor
  · exact le_max_left 0 _
  · exact max_le (by norm_num) (min_le_left _ _)

/-- Rounding an integer gives it back. -/
theorem jsRound_intCast (k : ℤ) : jsRound ((k : ℤ) : ℚ) = k := by
  unfold jsRound
  rw [Int.floor_int_add]
  norm_num

/-- jsRound is monotone. -/
theorem jsRound_mono {a b : ℚ} (h : a ≤ b) : jsRound a ≤ jsRound b := by
  unfold jsRound
  exact Int.floor_le_floor (by linarith)

/-- jsRound of a value in [0, 100] lies in [0, 100]. -/
theorem jsRound_range {q : ℚ} (h0 : 0 ≤ q) (h1 : q ≤ 100) :
    0 ≤ jsRound q ∧ jsRound q ≤ 100 := by
  constructor
  · have := jsRound_mono (a := ((0 : ℤ) : ℚ)) (b := q) (by exact_mod_cast h0)
    rwa [jsRound_intCast] at this
  · have := jsRound_mono (a := q) (b := ((100 : ℤ) : ℚ)) (by exact_mod_cast h1)
    rwa [jsRound_intCast] at this

/-- Math.round(diff * 0.25) on an integer diff is the floor division
(diff + 2) / 4. -/
theorem jsRound_quarter (d : ℤ) :
    jsRound ((d : ℚ) * Simulation.FLOW_RATE) = (d + 2) / 4 := by
  have h : (d : ℚ) * Simulation.FLOW_RATE + 1/2 = ((d + 2 : ℤ) : ℚ) / ((4 : ℕ) : ℚ) := by
    simp only [Simulation.FLOW_RATE]
    push_cast
    ring
  rw [jsRound, h, Rat.floor_intCast_div_natCast]
  norm_num

/-- The rational rounding inside transfer eliminated in favour of integer
floor division. -/
theorem transfer_eq_transferZ (c n : ℤ) :
    Simulation.transfer c n = Simulation.transferZ c n := by
  unfold Simulation.transfer Simulation.transferZ
  simp only [jsRound_quarter]

/-- neighbourDelta agrees with its integer mirror. -/
theorem neighbourDelta_eq (W H : ℕ) (old : ℕ → ℤ) (x y : ℕ) :
    Simulation.neighbourDelta W H old x y = Simulation.neighbourDeltaZ W H old x y := by
  simp only [Simulation.neighbourDelta, Simulation.neighbourDeltaZ, transfer_eq_transferZ]

/-- cellUpdate agrees with its integer mirror. -/
theorem cellUpdate_eq (W H : ℕ) (old : ℕ → ℤ) (p : ℕ) :
    Simulation.cellUpdate W H old p = Simulation.cellUpdateZ W H old p := by
  simp only [Simulation.cellUpdate, Simulation.cellUpdateZ, neighbourDelta_eq]

/-- updateGrid agrees with its integer mirror, pointwise. -/
theorem updateGrid_eq_Z (W H : ℕ) (f : ℕ → ℤ) (i : ℕ) :
    Simulation.updateGrid W H f i = Simulation.updateGridZ W H f i := by
  simp only [Simulation.updateGrid, Simulation.updateGridZ, cellUpdate_eq]

/-- Math.trunc(d / 2) expressed through floor division on either sign. -/
theorem tdivTwo_eq (d : ℤ) : Int.tdiv d 2 = if 0 ≤ d then d / 2 else -((-d) / 2) := by
  rcases le_or_lt 0 d with h | h
  · rw [if_pos h, Int.tdiv_eq_ediv h (by omega)]
  · rw [if_neg (by omega)]
    conv_lhs => rw [← neg_neg d]
    rw [Int.neg_tdiv, Int.tdiv_eq_ediv (by omega) (by omega)]

/-- The equilibrium-safety clamp at work: a clamped transfer keeps the sign
of the diff and its magnitude stays at or below trunc(diff / 2). -/
theorem transfer_bounds (c n : ℤ) :
    (0 < n - c → 0 ≤ Simulation.transfer c n ∧ Simulation.transfer c n ≤ (n - c) / 2) ∧
    (n - c < 0 → -((c - n) / 2) ≤ Simulation.transfer c n ∧ Simulation.transfer c n ≤ 0) ∧
    (n - c = 0 → Simulation.transfer c n = 0) := by
  unfold Simulation.transfer
  refine ⟨fun h => ?_, fun h => ?_, fun h => ?_⟩
  · rw [if_neg (by omega), if_pos h, tdivTwo_eq, if_pos (by omega)]
    omega
  · rw [if_neg (by omega), if_neg (by omega), tdivTwo_eq, if_neg (by omega)]
    omega
  · rw [if_pos h]

/-- CLAIM C2: on the 3 x 3 grid with the centre at 100 and all other cells
at 0, one step of the neighbour-transfer variant yields exactly 25 in each
of the four cardinal neighbours of the centre, leaves the four diagonal
cells at 0, and drops the centre to 0. -/
theorem claim_C2_scenario_A :
    Simulation.updateGrid 3 3 fieldC2 1 = 25 ∧
    Simulation.updateGrid 3 3 fieldC2 3 = 25 ∧
    Simulation.updateGrid 3 3 fieldC2 5 = 25 ∧
    Simulation.updateGrid 3 3 fieldC2 7 = 25 ∧
    Simulation.updateGrid 3 3 fieldC2 0 = 0 ∧
    Simulation.updateGrid 3 3 fieldC2 2 = 0 ∧
    Simulation.updateGrid 3 3 fieldC2 6 = 0 ∧
    Simulation.updateGrid 3 3 fieldC2 8 = 0 ∧
    Simulation.updateGrid 3 3 fieldC2 4 = 0 := by
  simp only [updateGrid_eq_Z]
  decide

/-- CLAIM C9: a single neighbour-transfer step can strictly increase the
total heat.  On the 1 x 2 grid [2, 0], rounding halves toward positive
infinity makes the cool cell gain 1 while the hot cell loses 0, raising the
sum from 2 to 3; the two half-integer roundings are not equal and opposite. -/
theorem claim_C9_sum_not_conserved :
    (∀ i, i < 2 → 0 ≤ pairField 2 0 i ∧ pairField 2 0 i ≤ 100) ∧
    jsRound (1/2) = 1 ∧
    jsRound (-(1/2)) = 0 ∧
    Simulation.updateGrid 2 1 (pairField 2 0) 0 = 2 ∧
    Simulation.updateGrid 2 1 (pairField 2 0) 1 = 1 ∧
    pairField 2 0 0 + pairField 2 0 1 <
      Simulation.updateGrid 2 1 (pairField 2 0) 0 + Simulation.updateGrid 2 1 (pairField 2 0) 1 := by
  refine ⟨by decide, ?_, ?_, ?_, ?_, ?_⟩
  · unfold jsRound; norm_num
  · unfold jsRound; norm_num
  all_goals simp only [updateGrid_eq_Z]
  all_goals decide

/-- CLAIM C4, counterexample: the sign of the difference of an adjacent
pair CAN flip in one step even when it is at least 2 beforehand, because
the equilibrium-safety clamp is only pairwise: transfers with the other
neighbours are unconstrained by it.  On a 4 x 3 grid, cell 5 = (1,1) holds
50 with its other three neighbours at 0, cell 6 = (2,1) holds 48 with its
other three neighbours at 100; the pair difference moves from +2 to -74. -/
theorem claim_C4_counterexample :
    (∀ i, i < 12 → 0 ≤ fieldC4 i ∧ fieldC4 i ≤ 100) ∧
    fieldC4 5 - fieldC4 6 = 2 ∧
    Simulation.updateGrid 4 3 fieldC4 5 = 14 ∧
    Simulation.updateGrid 4 3 fieldC4 6 = 88 ∧
    Simulation.updateGrid 4 3 fieldC4 5 - Simulation.updateGrid 4 3 fieldC4 6 < 0 := by
  refine ⟨by decide, by decide, ?_, ?_, ?_⟩
  all_goals simp only [updateGrid_eq_Z]
  all_goals decide

/-- CLAIM C4 as amended: restricted to an adjacent pair in isolation (the
1 x 2 grid, where the shared edge is the only source of transfers), one
step never flips the sign of a difference whose magnitude is at least 2
beforehand. -/
theorem claim_C4_amended (a b : ℤ)
    (ha0 : 0 ≤ a) (ha1 : a ≤ 100) (hb0 : 0 ≤ b) (hb1 : b ≤ 100) :
    (2 ≤ b - a →
      0 ≤ Simulation.updateGrid 2 1 (pairField a b) 1 -
          Simulation.updateGrid 2 1 (pairField a b) 0) ∧
    (2 ≤ a - b →
      0 ≤ Simulation.updateGrid 2 1 (pairField a b) 0 -
          Simulation.updateGrid 2 1 (pairField a b) 1) := by
  have e0 : Simulation.updateGrid 2 1 (pairField a b) 0 =
      clampZ 0 100 (a + Simulation.transfer a b) := by
    simp [Simulation.updateGrid, Simulation.cellUpdate, Simulation.neighbourDelta, pairField]
  have e1 : Simulation.updateGrid 2 1 (pairField a b) 1 =
      clampZ 0 100 (b + Simulation.transfer b a) := by
    simp [Simulation.updateGrid, Simulation.cellUpdate, Simulation.neighbourDelta, pairField]
  rw [e0, e1]
  constructor
  · intro h
    have h1 := (transfer_bounds a b).1 (by omega)
    have h2 := (transfer_bounds b a).2.1 (by omega)
    unfold clampZ
    omega
  · intro h
    have h1 := (transfer_bounds b a).1 (by omega)
    have h2 := (transfer_bounds a b).2.1 (by omega)
    unfold clampZ
    omega

/-- Witness for claim_C4_amended at the concrete pair (0, 2). -/
theorem claim_C4_amended_witness :
    ((0:ℤ) ≤ 0 ∧ (0:ℤ) ≤ 100 ∧ (0:ℤ) ≤ 2 ∧ (2:ℤ) ≤ 100 ∧ (2:ℤ) ≤ 2 - 0) ∧
    0 ≤ Simulation.updateGrid 2 1 (pairField 0 2) 1 -
        Simulation.updateGrid 2 1 (pairField 0 2) 0 :=
  ⟨⟨by decide, by decide, by decide, by decide, by decide⟩,
    (claim_C4_amended 0 2 (by decide) (by decide) (by decide) (by decide)).1 (by decide)⟩

/-- CLAIM C6: a uniform field with value v in [0, 100] is an exact fixed
point of the neighbour-transfer step, for any grid size and any number of
steps: every diff is 0, so no transfer occurs. -/
theorem claim_C6_uniform_fixed (W H : ℕ) (v : ℤ) (h0 : 0 ≤ v) (h1 : v ≤ 100) (k : ℕ) :
    (Simulation.updateGrid W H)^[k] (fun _ => v) = fun _ => v := by
  have hfix : Simulation.updateGrid W H (fun _ => v) = fun _ => v := by
    funext i
    unfold Simulation.updateGrid
    split
    · have ht : Simulation.transfer v v = 0 := by
        unfold Simulation.transfer
        simp
      simp only [Simulation.cellUpdate, Simulation.neighbourDelta, ht, ite_self]
      unfold clampZ
      omega
    · rfl
  exact Function.iterate_fixed hfix k

/-- Witness for claim_C6_uniform_fixed on a 5 x 4 grid, value 42, 3 steps. -/
theorem claim_C6_uniform_fixed_witness :
    ((0:ℤ) ≤ 42 ∧ (42:ℤ) ≤ 100) ∧
    (Simulation.updateGrid 5 4)^[3] (fun _ => (42:ℤ)) = fun _ => (42:ℤ) :=
  ⟨⟨by decide, by decide⟩, claim_C6_uniform_fixed 5 4 42 (by decide) (by decide) 3⟩

/-- A sequential traversal writing cells in any order: the value at i is
the snapshot-computed cell value when i was visited, and the untouched
initial value otherwise. -/
theorem seq_foldl_apply (W H : ℕ) (f : ℕ → ℤ) (order : List ℕ) (t : ℕ → ℤ) (i : ℕ) :
    List.foldl (Simulation.writeCell W H f) t order i =
      if i ∈ order then Simulation.cellUpdate W H f i else t i := by
  induction order generalizing t with
  | nil => simp
  | cons p rest ih =>
      simp only [List.foldl_cons, ih, List.mem_cons]
      by_cases h1 : i ∈ rest
      · simp [h1]
      · by_cases h2 : i = p
        · subst h2
          simp [h1, Simulation.writeCell]
        · simp [h1, h2, Simulation.writeCell]

/-- CLAIM C7: the neighbour-transfer step is independent of the cell
visitation order: a sequential in-place traversal in any permutation of
row-major order produces the same field as updateGrid, because all reads
come from the frame-start snapshot and every grid index is written exactly
once with a value that does not depend on the live array. -/
theorem claim_C7_order_independence (W H : ℕ) (order : List ℕ) (f : ℕ → ℤ)
    (h : order.Perm (List.range (W * H))) (i : ℕ) :
    Simulation.updateGridSeq W H order f i = Simulation.updateGrid W H f i := by
  unfold Simulation.updateGridSeq Simulation.updateGrid
  rw [seq_foldl_apply]
  by_cases hi : i < W * H
  · rw [if_pos (h.mem_iff.mpr (List.mem_range.mpr hi)), if_pos hi]
  · rw [if_neg (fun hm => hi (List.mem_range.mp (h.mem_iff.mp hm))), if_neg hi]

/-- Witness for claim_C7_order_independence: the order [3, 0, 2, 1] on the
2 x 2 grid [100, 0, 0, 0], observed at cell 2. -/
theorem claim_C7_order_independence_witness :
    List.Perm [3, 0, 2, 1] (List.range (2 * 2)) ∧
    Simulation.updateGridSeq 2 2 [3, 0, 2, 1] fieldC5 2 =
      Simulation.updateGrid 2 2 fieldC5 2 :=
  ⟨by decide, claim_C7_order_independence 2 2 [3, 0, 2, 1] fieldC5 (by decide) 2⟩

/-- Reconciliation is the identity on an accumulator that is an exact copy
of the integer field. -/
theorem reconcile_intCast (f : ℕ → ℤ) (size : ℕ) :
    Simulation2.reconcile size f (fun i => (f i : ℚ)) = fun i => (f i : ℚ) := by
  funext j
  unfold Simulation2.reconcile
  rw [if_neg]
  rintro ⟨_, hne⟩
  exact hne (jsRound_intCast (f j)).symm

/-- Every stencil output on a grid cell is clamped into [0, 100]. -/
theorem nextAcc_range (W H : ℕ) (s : Simulation2.State) (i : ℕ) (hi : i < W * H) :
    0 ≤ Simulation2.nextAcc W H s i ∧ Simulation2.nextAcc W H s i ≤ 100 := by
  unfold Simulation2.nextAcc
  rw [if_pos hi]
  exact clampQ_range _

/-- The neighbour-transfer step lands every grid cell in [0, 100],
whatever the input field. -/
theorem stepA_range (W H : ℕ) (g : ℕ → ℤ) (i : ℕ) (hi : i < W * H) :
    0 ≤ Simulation.updateGrid W H g i ∧ Simulation.updateGrid W H g i ≤ 100 := by
  unfold Simulation.updateGrid
  rw [if_pos hi]
  exact clampZ_range _

/-- The Laplacian-stencil step publishes every grid cell in [0, 100],
whatever the input state. -/
theorem stepB_temp_range (W H : ℕ) (s : Simulation2.State) (i : ℕ) (hi : i < W * H) :
    0 ≤ (Simulation2.updateGrid W H s).temp i ∧ (Simulation2.updateGrid W H s).temp i ≤ 100 := by
  have h : (Simulation2.updateGrid W H s).temp i =
      clampZ 0 100 (jsRound (Simulation2.nextAcc W H s i)) := by
    show (if i < W * H then clampZ 0 100 (jsRound (Simulation2.nextAcc W H s i))
      else s.temp i) = _
    rw [if_pos hi]
  rw [h]
  exact clampZ_range _

/-- CLAIM C1: starting from any field of a W x H grid (W, H at least 1)
whose cells lie in [0, 100], every grid cell lies in [0, 100] after one
step of either strategy, and hence after every step of any frame sequence
of either strategy. -/
theorem claim_C1_range_invariant (W H : ℕ) (f : ℕ → ℤ)
    (hW : 1 ≤ W) (hH : 1 ≤ H) (hf : ∀ i, i < W * H → 0 ≤ f i ∧ f i ≤ 100) :
    (∀ i, i < W * H →
      0 ≤ Simulation.updateGrid W H f i ∧ Simulation.updateGrid W H f i ≤ 100) ∧
    (∀ k i, i < W * H →
      0 ≤ (Simulation.updateGrid W H)^[k + 1] f i ∧
      (Simulation.updateGrid W H)^[k + 1] f i ≤ 100) ∧
    (∀ s : Simulation2.State, s.temp = f → ∀ i, i < W * H →
      0 ≤ (Simulation2.updateGrid W H s).temp i ∧
      (Simulation2.updateGrid W H s).temp i ≤ 100) ∧
    (∀ s : Simulation2.State, s.temp = f → ∀ k i, i < W * H →
      0 ≤ ((Simulation2.updateGrid W H)^[k + 1] s).temp i ∧
      ((Simulation2.updateGrid W H)^[k + 1] s).temp i ≤ 100) := by
  refine ⟨fun i hi => stepA_range W H f i hi, fun k i hi => ?_, fun s _ i hi => stepB_temp_range W H s i hi, fun s _ k i hi => ?_⟩
  · rw [Function.iterate_succ_apply']
    exact stepA_range W H _ i hi
  · rw [Function.iterate_succ_apply']
    exact stepB_temp_range W H _ i hi

/-- Witness for claim_C1_range_invariant on the 1 x 1 grid holding 50. -/
theorem claim_C1_range_invariant_witness :
    (1 ≤ 1 ∧ 0 ≤ (50:ℤ) ∧ (50:ℤ) ≤ 100) ∧
    (0 ≤ Simulation.updateGrid 1 1 (fun _ => 50) 0 ∧
      Simulation.updateGrid 1 1 (fun _ => 50) 0 ≤ 100) ∧
    (0 ≤ (Simulation2.updateGrid 1 1 (Simulation2.seeded fun _ => 50)).temp 0 ∧
      (Simulation2.updateGrid 1 1 (Simulation2.seeded fun _ => 50)).temp 0 ≤ 100) :=
  ⟨⟨by decide, by decide, by decide⟩,
    (claim_C1_range_invariant 1 1 (fun _ => 50) (by decide) (by decide) (by decide)).1 0 (by decide),
    (claim_C1_range_invariant 1 1 (fun _ => 50) (by decide) (by decide)
      (by decide)).2.2.1 (Simulation2.seeded fun _ => 50) rfl 0 (by decide)⟩

/-- CLAIM C10: at the end of every Laplacian-stencil step, each published
grid cell equals the rounded post-swap current accumulator; consequently a
following reconciliation pass with no intervening external edit leaves the
accumulator unchanged. -/
theorem claim_C10_publish_round (W H : ℕ) (s : Simulation2.State) :
    (∀ i, i < W * H →
      (Simulation2.updateGrid W H s).temp i =
        jsRound ((Simulation2.updateGrid W H s).stateA i)) ∧
    Simulation2.reconcile (W * H) (Simulation2.updateGrid W H s).temp
        (Simulation2.updateGrid W H s).stateA =
      (Simulation2.updateGrid W H s).stateA := by
  have key : ∀ i, i < W * H →
      (Simulation2.updateGrid W H s).temp i =
        jsRound ((Simulation2.updateGrid W H s).stateA i) := by
    intro i hi
    show (if i < W * H then clampZ 0 100 (jsRound (Simulation2.nextAcc W H s i))
        else s.temp i) = jsRound (Simulation2.nextAcc W H s i)
    rw [if_pos hi]
    have hr := nextAcc_range W H s i hi
    have hj := jsRound_range hr.1 hr.2
    unfold clampZ
    omega
  refine ⟨key, ?_⟩
  funext j
  unfold Simulation2.reconcile
  by_cases hj : j < W * H
  · rw [if_neg (fun hc => hc.2 (key j hj))]
  · rw [if_neg (fun hc => hj hc.1)]

/-- Witness for claim_C10_publish_round on the seeded 1 x 1 grid holding 7. -/
theorem claim_C10_publish_round_witness :
    (0 < 1 * 1) ∧
    (Simulation2.updateGrid 1 1 (Simulation2.seeded fun _ => 7)).temp 0 =
      jsRound ((Simulation2.updateGrid 1 1 (Simulation2.seeded fun _ => 7)).stateA 0) :=
  ⟨by decide,
    (claim_C10_publish_round 1 1 (Simulation2.seeded fun _ => 7)).1 0 (by decide)⟩

/-- CLAIM C8: both accumulators hold values in [0, 100] on every grid cell
after a step, provided the field and the current accumulator did before:
stencil writes are clamped, reconciliation adopts in-range field integers,
and seeding copies in-range field integers. -/
theorem claim_C8_accumulator_range (W H : ℕ) (f : ℕ → ℤ) (s : Simulation2.State)
    (hf : ∀ i, i < W * H → 0 ≤ f i ∧ f i ≤ 100)
    (htemp : ∀ i, i < W * H → 0 ≤ s.temp i ∧ s.temp i ≤ 100)
    (hstA : ∀ i, i < W * H → 0 ≤ s.stateA i ∧ s.stateA i ≤ 100) :
    (∀ i, i < W * H →
      (0 ≤ (Simulation2.updateGrid W H s).stateA i ∧
        (Simulation2.updateGrid W H s).stateA i ≤ 100) ∧
      (0 ≤ (Simulation2.updateGrid W H s).stateB i ∧
        (Simulation2.updateGrid W H s).stateB i ≤ 100)) ∧
    (∀ i, i < W * H →
      (0 ≤ (Simulation2.seeded f).stateA i ∧ (Simulation2.seeded f).stateA i ≤ 100) ∧
      (0 ≤ (Simulation2.seeded f).stateB i ∧ (Simulation2.seeded f).stateB i ≤ 100)) := by
  constructor
  · intro i hi
    constructor
    · exact nextAcc_range W H s i hi
    · show (0 ≤ Simulation2.reconcile (W * H) s.temp s.stateA i ∧
        Simulation2.reconcile (W * H) s.temp s.stateA i ≤ 100)
      unfold Simulation2.reconcile
      split
      · have := htemp i hi
        constructor
        · exact_mod_cast this.1
        · exact_mod_cast this.2
      · exact hstA i hi
  · intro i hi
    have := hf i hi
    have hc : 0 ≤ ((f i : ℤ) : ℚ) ∧ ((f i : ℤ) : ℚ) ≤ 100 :=
      ⟨by exact_mod_cast this.1, by exact_mod_cast this.2⟩
    exact ⟨hc, hc⟩

/-- Witness for claim_C8_accumulator_range on the seeded 1 x 1 grid holding 50. -/
theorem claim_C8_accumulator_range_witness :
    (0 ≤ (50:ℤ) ∧ (50:ℤ) ≤ 100) ∧
    (0 ≤ (Simulation2.updateGrid 1 1 (Simulation2.seeded fun _ => 50)).stateA 0 ∧
      (Simulation2.updateGrid 1 1 (Simulation2.seeded fun _ => 50)).stateA 0 ≤ 100) :=
  ⟨⟨by decide, by decide⟩,
    ((claim_C8_accumulator_range 1 1 (fun _ => 50) (Simulation2.seeded fun _ => 50)
      (by decide)
      (by decide)
      (fun i _ => ⟨by norm_num [Simulation2.seeded], by norm_num [Simulation2.seeded]⟩)).1
      0 (by decide)).1⟩

/-- CLAIM C3: when the live field value of a grid cell differs from its
rounded current accumulator at entry to a step, the reconciliation pass
overwrites that accumulator cell with exactly the integer field value, and
the whole step computes the same published field and the same new current
accumulator as it would from an accumulator holding that integer: the
pre-edit fractional value is irrelevant. -/
theorem claim_C3_reconciliation (W H : ℕ) (s : Simulation2.State) (i : ℕ)
    (hi : i < W * H) (hmis : s.temp i ≠ jsRound (s.stateA i)) :
    Simulation2.reconcile (W * H) s.temp s.stateA i = ((s.temp i : ℤ) : ℚ) ∧
    (∀ j,
      (Simulation2.updateGrid W H s).temp j =
        (Simulation2.updateGrid W H
          (Simulation2.State.mk s.temp
            (Function.update s.stateA i ((s.temp i : ℤ) : ℚ)) s.stateB)).temp j ∧
      (Simulation2.updateGrid W H s).stateA j =
        (Simulation2.updateGrid W H
          (Simulation2.State.mk s.temp
            (Function.update s.stateA i ((s.temp i : ℤ) : ℚ)) s.stateB)).stateA j) := by
  have hrec : Simulation2.reconcile (W * H) s.temp
      (Function.update s.stateA i ((s.temp i : ℤ) : ℚ)) =
      Simulation2.reconcile (W * H) s.temp s.stateA := by
    funext j
    unfold Simulation2.reconcile
    by_cases hji : j = i
    · subst hji
      rw [Function.update_same, if_neg, if_pos ⟨hi, hmis⟩]
      rintro ⟨_, hne⟩
      exact hne (jsRound_intCast (s.temp j)).symm
    · rw [Function.update_noteq hji]
  have hnext : Simulation2.nextAcc W H
      (Simulation2.State.mk s.temp
        (Function.update s.stateA i ((s.temp i : ℤ) : ℚ)) s.stateB) =
      Simulation2.nextAcc W H s := by
    unfold Simulation2.nextAcc
    rw [hrec]
  constructor
  · unfold Simulation2.reconcile
    rw [if_pos ⟨hi, hmis⟩]
  · intro j
    constructor
    · show (if j < W * H then clampZ 0 100 (jsRound (Simulation2.nextAcc W H s j))
          else s.temp j) =
        (if j < W * H then clampZ 0 100 (jsRound (Simulation2.nextAcc W H
            (Simulation2.State.mk s.temp
              (Function.update s.stateA i ((s.temp i : ℤ) : ℚ)) s.stateB) j))
          else s.temp j)
      rw [hnext]
    · show Simulation2.nextAcc W H s j =
        Simulation2.nextAcc W H
          (Simulation2.State.mk s.temp
            (Function.update s.stateA i ((s.temp i : ℤ) : ℚ)) s.stateB) j
      rw [hnext]

/-- CLAIM C5: on the 2 x 2 grid [100, 0, 0, 0] with freshly seeded
accumulators, one Laplacian-stencil step publishes for each cell
clamp(round(center + 0.2 * (up + down + left + right - 4 * center)), 0, 100)
with out-of-bounds neighbours reusing the centre value; concretely the
published field is [60, 20, 20, 0]. -/
theorem claim_C5_scenario_B :
    (Simulation2.updateGrid 2 2 (Simulation2.seeded fieldC5)).temp 0 =
      clampZ 0 100 (jsRound ((100:ℚ) + Simulation2.DIFFUSIVITY * (100 + 0 + 100 + 0 - 4 * 100))) ∧
    (Simulation2.updateGrid 2 2 (Simulation2.seeded fieldC5)).temp 1 =
      clampZ 0 100 (jsRound ((0:ℚ) + Simulation2.DIFFUSIVITY * (0 + 0 + 100 + 0 - 4 * 0))) ∧
    (Simulation2.updateGrid 2 2 (Simulation2.seeded fieldC5)).temp 2 =
      clampZ 0 100 (jsRound ((0:ℚ) + Simulation2.DIFFUSIVITY * (100 + 0 + 0 + 0 - 4 * 0))) ∧
    (Simulation2.updateGrid 2 2 (Simulation2.seeded fieldC5)).temp 3 =
      clampZ 0 100 (jsRound ((0:ℚ) + Simulation2.DIFFUSIVITY * (0 + 0 + 0 + 0 - 4 * 0))) ∧
    (Simulation2.updateGrid 2 2 (Simulation2.seeded fieldC5)).temp 0 = 60 ∧
    (Simulation2.updateGrid 2 2 (Simulation2.seeded fieldC5)).temp 1 = 20 ∧
    (Simulation2.updateGrid 2 2 (Simulation2.seeded fieldC5)).temp 2 = 20 ∧
    (Simulation2.updateGrid 2 2 (Simulation2.seeded fieldC5)).temp 3 = 0 := by
  have hat : ∀ i, i < 2 * 2 →
      (Simulation2.updateGrid 2 2 (Simulation2.seeded fieldC5)).temp i =
        clampZ 0 100 (jsRound (Simulation2.nextAcc 2 2 (Simulation2.seeded fieldC5) i)) := by
    intro i hi
    show (if i < 2 * 2
        then clampZ 0 100 (jsRound (Simulation2.nextAcc 2 2 (Simulation2.seeded fieldC5) i))
        else fieldC5 i) = _
    rw [if_pos hi]
  have hacc : ∀ i, i < 2 * 2 →
      Simulation2.nextAcc 2 2 (Simulation2.seeded fieldC5) i =
        Simulation2.lapCell 2 2 (fun j => (fieldC5 j : ℚ)) (i % 2) (i / 2) := by
    intro i hi
    unfold Simulation2.nextAcc
    rw [if_pos hi]
    show Simulation2.lapCell 2 2
        (Simulation2.reconcile (2 * 2) fieldC5 (fun j => (fieldC5 j : ℚ))) (i % 2) (i / 2) = _
    rw [reconcile_intCast]
  have l0 : Simulation2.lapCell 2 2 (fun j => (fieldC5 j : ℚ)) 0 0 = 60 := by
    unfold Simulation2.lapCell Simulation2.DIFFUSIVITY clampQ fieldC5
    norm_num
  have l1 : Simulation2.lapCell 2 2 (fun j => (fieldC5 j : ℚ)) 1 0 = 20 := by
    unfold Simulation2.lapCell Simulation2.DIFFUSIVITY clampQ fieldC5
    norm_num
  have l2 : Simulation2.lapCell 2 2 (fun j => (fieldC5 j : ℚ)) 0 1 = 20 := by
    unfold Simulation2.lapCell Simulation2.DIFFUSIVITY clampQ fieldC5
    norm_num
  have l3 : Simulation2.lapCell 2 2 (fun j => (fieldC5 j : ℚ)) 1 1 = 0 := by
    unfold Simulation2.lapCell Simulation2.DIFFUSIVITY clampQ fieldC5
    norm_num
  refine ⟨?_, ?_, ?_, ?_, ?_, ?_, ?_, ?_⟩
  · rw [hat 0 (by norm_num), hacc 0 (by norm_num)]
    norm_num [l0, Simulation2.DIFFUSIVITY, jsRound, clampZ]
  · rw [hat 1 (by norm_num), hacc 1 (by norm_num)]
    norm_num [l1, Simulation2.DIFFUSIVITY, jsRound, clampZ]
  · rw [hat 2 (by norm_num), hacc 2 (by norm_num)]
    norm_num [l2, Simulation2.DIFFUSIVITY, jsRound, clampZ]
  · rw [hat 3 (by norm_num), hacc 3 (by norm_num)]
    norm_num [l3, Simulation2.DIFFUSIVITY, jsRound, clampZ]
  · rw [hat 0 (by norm_num), hacc 0 (by norm_num)]
    norm_num [l0, jsRound, clampZ]
  · rw [hat 1 (by norm_num), hacc 1 (by norm_num)]
    norm_num [l1, jsRound, clampZ]
  · rw [hat 2 (by norm_num), hacc 2 (by norm_num)]
    norm_num [l2, jsRound, clampZ]
  · rw [hat 3 (by norm_num), hacc 3 (by norm_num)]
    norm_num [l3, jsRound, clampZ]

/-- Witness for claim_C3_reconciliation: a 1 x 1 grid whose field holds 5
while the accumulator holds 7/2 (which rounds to 4). -/
theorem claim_C3_reconciliation_witness :
    (0 < 1 * 1 ∧ (5:ℤ) ≠ jsRound ((7:ℚ)/2)) ∧
    Simulation2.reconcile (1 * 1) (fun _ => (5:ℤ)) (fun _ => (7:ℚ)/2) 0 = ((5:ℤ) : ℚ) :=
  ⟨⟨by decide, by norm_num [jsRound]⟩,
    (claim_C3_reconciliation 1 1
      (Simulation2.State.mk (fun _ => (5:ℤ)) (fun _ => (7:ℚ)/2) (fun _ => 0)) 0
      (by decide) (by norm_num [jsRound])).1⟩

end TempGrid
